import Mathlib

/-
Verification of the ProjectCinema backend core: reservation ledger
(`app/api/routes/reserve.py`), MQTT broker adapter
(`app/core/mqtt_client.py`), seat-map projection
(`app/api/routes/showings.py`) and the persisted schema
(`app/models/*.py`), shallowly embedded in Lean.
-/

namespace ProjectCinema

/-! ## JSON-like payload values

Broker payloads are JSON objects (`json.loads` / `json.dumps`).  A payload
object is embedded as an association list from keys to `JVal`. -/

inductive JVal where
  | null
  | str (s : String)
  | num (n : Int)
  | boolean (b : Bool)
  | arr (xs : List JVal)
  | obj (fs : List (String × JVal))

/-- Python `d.get(k, dflt)` on a dict embedded as an association list. -/
def pyGetD (d : List (String × JVal)) (k : String) (dflt : JVal) : JVal :=
  match d.find? (fun p => p.1 == k) with
  | some p => p.2
  | none => dflt

/-- Python `d.get(k)`: `None` (here `JVal.null`) when the key is absent. -/
def pyGet (d : List (String × JVal)) (k : String) : JVal :=
  pyGetD d k .null

/-- Python truthiness of a JSON value (`None`, `""`, `0`, `False`, `[]`,
and the empty dict are falsy). -/
def pyTruthy : JVal → Bool
  | .null => false
  | .str s => !(s == "")
  | .num n => !(n == 0)
  | .boolean b => b
  | .arr xs => !xs.isEmpty
  | .obj fs => !fs.isEmpty

/-- Python `str(v)` / f-string interpolation for the scalar values that the
handlers interpolate into topics (`None` renders as `"None"`).  Containers
are abstracted: no code path under verification interpolates one. -/
def pyStrOf : JVal → String
  | .null => "None"
  | .str s => s
  | .num n => toString n
  | .boolean true => "True"
  | .boolean false => "False"
  | .arr _ => "[...]"
  | .obj _ => "..."

/-- Python iteration over the value bound from a JSON `seats` field: the
handlers only ever receive a JSON array here; other shapes are not
exercised by any property and iterate to nothing. -/
def jvalList : JVal → List JVal
  | .arr xs => xs
  | _ => []

/-- Python dict assignment `d[k] = v`: overwrite in place when the key
exists (keeping its position), append otherwise.  A `json.loads` dict has
each key at most once, so replacing the first occurrence is exact. -/
def dictSet : List (String × JVal) → String → JVal → List (String × JVal)
  | [], k, v => [(k, v)]
  | p :: rest, k, v =>
    if p.1 == k then (k, v) :: rest else p :: dictSet rest k v

/-- The Python dict display `{**d, **u}` (as in
`{"showingId": showing_id, **payload}`): start from `d` and insert the
entries of `u` left to right, later occurrences overriding. -/
def pyDictUpdate (d : List (String × JVal)) : List (String × JVal) →
    List (String × JVal)
  | [] => d
  | (k, v) :: rest => pyDictUpdate (dictSet d k v) rest

/-- First-occurrence lookup in a payload object, `some v` when present. -/
def pyLookup (d : List (String × JVal)) (k : String) : Option JVal :=
  (d.find? (fun p => p.1 == k)).map (fun p => p.2)

/-! ## Topic levels

Python `s.split("/")` (and the level split of MQTT topic matching),
implemented structurally over the character list so that it computes by
kernel reduction. -/

def splitSlashChars : List Char → List (List Char)
  | [] => [[]]
  | c :: rest =>
    if c == '/' then [] :: splitSlashChars rest
    else
      match splitSlashChars rest with
      | [] => [[c]]
      | seg :: segs => (c :: seg) :: segs

/-- `topic.split("/")`. -/
def split_slash (s : String) : List String :=
  (splitSlashChars s.data).map String.mk

/-! ## MQTT topic matching

`paho.mqtt.client.topic_matches_sub`: level-by-level match where `+`
matches one level, a trailing `#` matches any remaining levels (including
none), and a subscription starting with a wildcard does not match a topic
starting with `$`. -/

def topicLevelsMatch : List String → List String → Bool
  | ["#"], _ => true
  | [], [] => true
  | p :: ps, t :: ts => (p == "+" || p == t) && topicLevelsMatch ps ts
  | _, _ => false

def topic_matches_sub (sub topic : String) : Bool :=
  if ((sub.data.head? == some '#') || (sub.data.head? == some '+'))
      && (topic.data.head? == some '$') then
    false
  else
    topicLevelsMatch (split_slash sub) (split_slash topic)

/-! ## Outbound publish (`publish_message`, lines 112-133)

`publish_message` serialises the payload and hands it to the broker
client.  It returns `False` (after logging) when the client is missing or
the publish is not accepted, `True` otherwise; it has no access to any
database state. -/

/-- One attempted broker publish: topic plus JSON-object payload. -/
structure PubMsg where
  topic : String
  payload : List (String × JVal)

/-- Environment of `publish_message`: whether the singleton client exists
and whether the client accepts the publish (`rc == MQTT_ERR_SUCCESS` and
no transport exception). -/
structure BrokerState where
  clientInitialized : Bool
  publishAccepted : Bool

def publish_message (broker : BrokerState) (_topic : String)
    (_payload : List (String × JVal)) : Bool :=
  if !broker.clientInitialized then false
  else broker.publishAccepted

/-! ## Inbound handlers (`mqtt_client.py`, lines 157-233) -/

/-- Payload of one per-seat broadcast on `seats/updates` inside
`handle_booking_request`. -/
def bookedSeatUpdate (showing_id user_id seat : JVal) :
    List (String × JVal) :=
  [("showingId", showing_id), ("seatId", seat), ("status", .str "booked"),
   ("updatedAt", .str "2025-05-01T12:00:00Z"), ("userId", user_id)]

/-- Payload of one per-seat broadcast on the showing-scoped topic inside
`handle_booking_request`. -/
def showingSeatUpdate (user_id seat : JVal) : List (String × JVal) :=
  [("seatId", seat), ("status", .str "booked"),
   ("updatedAt", .str "2025-05-01T12:00:00Z"), ("userId", user_id)]

/-- `handle_booking_request` (lines 157-217): validates the payload, sends
one response on the user topic, and on the (always taken) success path
broadcasts one `seats/updates` message per seat and then one
showing-scoped message per seat.  Returned is the ordered list of publish
calls made. -/
def handle_booking_request (payload : List (String × JVal)) : List PubMsg :=
  let user_id := pyGet payload "userId"
  let showing_id := pyGet payload "showingId"
  let seats := pyGetD payload "seats" (.arr [])
  if !(pyTruthy user_id) || !(pyTruthy showing_id) || !(pyTruthy seats) then
    [⟨"booking/response/" ++ pyStrOf user_id,
      [("success", .boolean false),
       ("message", .str "Invalid booking request")]⟩]
  else
    ⟨"booking/response/" ++ pyStrOf user_id,
      [("success", .boolean true), ("message", .str "Booking successful"),
       ("bookingId", .str "123456")]⟩
    :: ((jvalList seats).map (fun seat =>
          ⟨"seats/updates", bookedSeatUpdate showing_id user_id seat⟩)
        ++ (jvalList seats).map (fun seat =>
          ⟨"showing/" ++ pyStrOf showing_id ++ "/seats",
           showingSeatUpdate user_id seat⟩))

/-- `handle_seat_status` (lines 220-232): takes the third topic level as
the showing id; a missing or empty third level is logged and dropped;
otherwise the payload is forwarded on `seats/updates` through the dict
display with `showingId` injected first (so a `showingId` already in the
payload overrides the injected one). -/
def handle_seat_status (topic : String) (payload : List (String × JVal)) :
    List PubMsg :=
  let parts := split_slash topic
  let showing_id := if parts.length > 2 then parts.getD 2 "" else ""
  if showing_id == "" then []
  else
    [⟨"seats/updates",
      pyDictUpdate [("showingId", .str showing_id)] payload⟩]

/-! ## Inbound dispatch (`on_message`, lines 69-86) -/

/-- One registered `(pattern, handler)` entry of `_topic_handlers`.  A
handler may raise; an exception is embedded as `Except.error`. -/
structure TopicHandler where
  pattern : String
  handle : String → List (String × JVal) → Except String (List PubMsg)

/-- Outcome of one `on_message` callback: the callback itself always
returns normally (both `json.JSONDecodeError` and any handler exception
are caught and logged). -/
inductive DispatchResult where
  | decodeFailure
  | noHandler
  | handled (pattern : String) (outcome : Except String (List PubMsg))

/-- `on_message` (lines 69-86): decode the payload; on success invoke the
handler of the first registered pattern matching the topic (and stop);
log and drop when no pattern matches; log and drop a payload that fails
to decode (`decoded = none`). -/
def on_message (handlers : List TopicHandler) (topic : String)
    (decoded : Option (List (String × JVal))) : DispatchResult :=
  match decoded with
  | none => .decodeFailure
  | some payload =>
    match handlers.find? (fun h => topic_matches_sub h.pattern topic) with
    | some h => .handled h.pattern (h.handle topic payload)
    | none => .noHandler

/-- The pattern whose handler a dispatch invoked, if any. -/
def invokedPattern : DispatchResult → Option String
  | .handled p _ => some p
  | _ => none

/-- The registration-ordered `_topic_handlers` table built by the
`@handle_topic` decorators (lines 157 and 220); neither handler raises. -/
def topic_handlers : List TopicHandler :=
  [⟨"booking/request", fun _t p => .ok (handle_booking_request p)⟩,
   ⟨"seats/status/#", fun t p => .ok (handle_seat_status t p)⟩]

/-! ## Persisted data model

Rows of the relational tables used by the reservation path, translated
from `app/models/*.py` and from the attribute usage in
`app/api/routes/reserve.py` / `screenings.py`.  Primary keys are embedded
as `Nat`.  The `bookings_count` running total of a showing and the
`booking_time` / `ticket_count` fields of a booking are written and read
by `reserve.py` and `screenings.py`; their column declarations are absent
from this snapshot of `models/showing.py` / `models/booking.py`
(modelled from the spec: `bookings_count` is the showing's denormalized
running total of committed reservations). -/

structure RoomRec where
  id : Nat
  name : String
  capacity : Nat
deriving Repr, DecidableEq

structure MovieRec where
  id : Nat
  title : String
deriving Repr, DecidableEq

structure ShowingRec where
  id : Nat
  movie_id : Nat
  room_id : Nat
  start_time : Nat
  status : String
  bookings_count : Nat
deriving Repr, DecidableEq

structure BookingRec where
  id : Nat
  user_id : Nat
  showing_id : Nat
  booking_time : Nat
  status : String
  ticket_count : Nat
deriving Repr, DecidableEq

structure SeatReservationRec where
  id : Nat
  booking_id : Nat
  showing_id : Nat
  seat_id : Nat
  row : String
  number : Nat
  status : String
  expires_at : Option Nat
deriving Repr, DecidableEq

/-- The persistent store visible to the reservation path. -/
structure DB where
  rooms : List RoomRec
  movies : List MovieRec
  showings : List ShowingRec
  bookings : List BookingRec
  seat_reservations : List SeatReservationRec
deriving Repr, DecidableEq

/-- `select(Showing).filter(Showing.id == sid)` followed by `.first()`. -/
def findShowing (db : DB) (sid : Nat) : Option ShowingRec :=
  db.showings.find? (fun s => s.id == sid)

def findRoom (db : DB) (rid : Nat) : Option RoomRec :=
  db.rooms.find? (fun r => r.id == rid)

def findMovie (db : DB) (mid : Nat) : Option MovieRec :=
  db.movies.find? (fun m => m.id == mid)

/-- The UPDATE issued for `screening.bookings_count += 1` at commit:
the row keyed by `sid` gets its counter incremented. -/
def incrBookingsCount (db : DB) (sid : Nat) : DB :=
  { db with
    showings := db.showings.map (fun s =>
      if s.id == sid then { s with bookings_count := s.bookings_count + 1 }
      else s) }

/-! ## The reserve operation (`reserve.py`, lines 21-89) -/

/-- The `HTTPException`s raised by `reserve_ticket`, plus the attribute
error that escapes when the showing's `room_id` references no room
(`screening.room` is `None` at line 47). -/
inductive ReserveError where
  | screeningNotFound
  | noTicketsAvailable
  | missingRoom
deriving Repr, DecidableEq

/-- The JSON body returned on success (lines 81-89). -/
structure ReserveResponse where
  booking_id : Nat
  screening_id : Nat
  movie_title : String
  start_time : Nat
  room : String
  ticket_count : Nat
  status : String
deriving Repr, DecidableEq

/-- The `Booking(...)` constructed at lines 54-61: confirmed, one ticket,
`booking_time` set to the screening's start time. -/
def newBooking (bid uid sid start_time : Nat) : BookingRec :=
  { id := bid, user_id := uid, showing_id := sid,
    booking_time := start_time, status := "confirmed", ticket_count := 1 }

/-- `reserve_ticket`: load the screening with its room; 404 when absent;
400 when `bookings_count >= room.capacity`; otherwise add one confirmed
single-ticket booking, increment the counter, and commit.  The returned
`DB` is the store as of the response (the error paths raise before any
write, so they return the store unchanged).  `new_booking_id` stands for
the fresh `uuid.uuid4()`. -/
def reserve_ticket (db : DB) (screening_id user_id new_booking_id : Nat) :
    DB × Except ReserveError ReserveResponse :=
  match findShowing db screening_id with
  | none => (db, .error .screeningNotFound)
  | some screening =>
    match findRoom db screening.room_id with
    | none => (db, .error .missingRoom)
    | some room =>
      if room.capacity ≤ screening.bookings_count then
        (db, .error .noTicketsAvailable)
      else
        let booking :=
          newBooking new_booking_id user_id screening_id screening.start_time
        let db2 :=
          incrBookingsCount { db with bookings := db.bookings ++ [booking] }
            screening_id
        (db2,
         .ok { booking_id := new_booking_id, screening_id := screening_id,
               movie_title :=
                 match findMovie db screening.movie_id with
                 | some m => m.title
                 | none => "Unknown",
               start_time := screening.start_time, room := room.name,
               ticket_count := 1, status := booking.status })

def isOk : Except ReserveError ReserveResponse → Bool
  | .ok _ => true
  | .error _ => false

/-! ## Commit / publish ordering (`reserve.py` lines 68-79)

After `await db.commit()` the route publishes the remaining-ticket delta.
`publish_screening_update` itself is referenced from `reserve.py` but its
definition is absent from this snapshot of `mqtt_client.py`. -/

/-- Modelled from the spec: `publish_screening_update` (imported at
`reserve.py` line 14, absent from this snapshot of `mqtt_client.py`)
performs a best-effort broadcast of the screening delta through
`publish_message`; it only logs on failure and returns, and receives no
database handle.  The concrete topic string is not visible in the
snapshot. -/
def publish_screening_update (broker : BrokerState) (screening_id : String)
    (payload : List (String × JVal)) : Bool :=
  publish_message broker ("screening/" ++ screening_id ++ "/update") payload

/-- Observable steps of one `reserve_ticket` request, in program order. -/
inductive ReserveEvent where
  | dbCommit
  | brokerPublish (ok : Bool)
deriving Repr, DecidableEq

/-- `reserve_ticket` including its post-commit publish: on success the
commit happens first, then one publish of the remaining-ticket payload
(computed from the already-updated screening row); error paths raise
before the commit, so neither event occurs. -/
def reserve_ticket_flow (db : DB) (broker : BrokerState)
    (screening_id user_id new_booking_id : Nat) :
    DB × Except ReserveError ReserveResponse × List ReserveEvent :=
  match reserve_ticket db screening_id user_id new_booking_id with
  | (db2, .error e) => (db2, .error e, [])
  | (db2, .ok resp) =>
    let pubOk :=
      match findShowing db2 screening_id with
      | none => false
      | some screening =>
        match findRoom db2 screening.room_id with
        | none => false
        | some room =>
          publish_screening_update broker (toString screening_id)
            [("id", .str (toString screening_id)),
             ("available_tickets",
              .num ((room.capacity : Int) - (screening.bookings_count : Int))),
             ("total_capacity", .num (room.capacity : Int))]
    (db2, .ok resp, [.dbCommit, .brokerPublish pubOk])

/-! ## Seat-map projection (`showings.py`, lines 95-163) -/

inductive SeatsError where
  | showingNotFound
  | roomInfoNotFound
deriving Repr, DecidableEq

/-- One element of the seat-map response.  The float prices 15.0 / 12.0
are exact integral constants, embedded as integers. -/
structure SeatOut where
  id : String
  row : String
  number : Nat
  status : String
  isAccessible : Bool
  price : Int
deriving Repr, DecidableEq

/-- The row labels iterated by the endpoint. -/
def seatRows : List String := ["A", "B", "C", "D", "E", "F", "G", "H"]

/-- One generated seat of the placeholder seat map (lines 141-161). -/
def mockSeat (row : String) (number : Nat) : SeatOut :=
  let is_accessible := row == "H" && (number == 1 || number == 2)
  let status :=
    if (row == "D" && (number == 6 || number == 7))
        || (row == "E" && (number == 6 || number == 7)) then "booked"
    else "available"
  { id := row ++ toString number, row := row, number := number,
    status := status, isAccessible := is_accessible,
    price := if is_accessible then 15 else 12 }

/-- `get_showing_seats`: 404 when the showing is absent, 404 when the
showing-room join returns no row, and otherwise the hardcoded 8x12 mock
seat list, generated row-major with `range(1, 13)` per row and never
consulting `seat_reservations`. -/
def get_showing_seats (db : DB) (showing_id : Nat) :
    Except SeatsError (List SeatOut) :=
  match findShowing db showing_id with
  | none => .error .showingNotFound
  | some showing =>
    match findRoom db showing.room_id with
    | none => .error .roomInfoNotFound
    | some _room =>
      .ok (seatRows.flatMap (fun row =>
        (List.range 12).map (fun i => mockSeat row (i + 1))))

def isOkSeats : Except SeatsError (List SeatOut) → Bool
  | .ok _ => true
  | .error _ => false

/-! ## Declared schema of `seat_reservations` (`seat_reservation.py`) -/

/-- One declared column: SQLAlchemy `Column(...)` flags. -/
structure ColumnDef where
  name : String
  primaryKey : Bool := false
  unique : Bool := false
  nullable : Bool := true
  foreignKey : Option String := none
deriving Repr, DecidableEq

/-- One declared table: columns plus any multi-column unique constraints
(`UniqueConstraint` entries in `__table_args__`). -/
structure TableDef where
  name : String
  columns : List ColumnDef
  uniqueConstraints : List (List String)
deriving Repr, DecidableEq

/-- The `seat_reservations` table exactly as declared in
`app/models/seat_reservation.py` (lines 10-34): the model body declares
the eleven columns below and no `__table_args__`, hence no table-level
unique constraint at all. -/
def seat_reservations_table : TableDef :=
  { name := "seat_reservations",
    columns :=
      [{ name := "id", primaryKey := true, nullable := false },
       { name := "booking_id", nullable := false,
         foreignKey := some "bookings.id" },
       { name := "showing_id", nullable := false,
         foreignKey := some "showings.id" },
       { name := "seat_id", nullable := false,
         foreignKey := some "seats.id" },
       { name := "row", nullable := false },
       { name := "number", nullable := false },
       { name := "price", nullable := false },
       { name := "status", nullable := false },
       { name := "created_at" },
       { name := "updated_at" },
       { name := "expires_at" }],
    uniqueConstraints := [] }

/-! ## Sample store used by witnesses -/

/-- A concrete store: one 2-seat room, one movie, one scheduled showing
with no bookings yet. -/
def sampleDB : DB :=
  { rooms := [{ id := 1, name := "Room 1", capacity := 2 }],
    movies := [{ id := 5, title := "Heat" }],
    showings := [{ id := 1, movie_id := 5, room_id := 1, start_time := 1000,
                   status := "scheduled", bookings_count := 0 }],
    bookings := [],
    seat_reservations := [] }

/-- `sampleDB` after one reservation has been committed. -/
def sampleDBFull : DB :=
  { sampleDB with
    showings := [{ id := 1, movie_id := 5, room_id := 1, start_time := 1000,
                   status := "scheduled", bookings_count := 2 }] }

/-- A store identical to `sampleDB` except that it also holds one active,
non-expired, booked seat reservation on seat A1 of showing 1. -/
def dbWithReservation : DB :=
  { sampleDB with
    bookings := [{ id := 50, user_id := 7, showing_id := 1,
                   booking_time := 1000, status := "confirmed",
                   ticket_count := 1 }],
    seat_reservations := [{ id := 70, booking_id := 50, showing_id := 1,
                            seat_id := 11, row := "A", number := 1,
                            status := "booked", expires_at := none }] }

/-! ## Association-list facts about the dict display -/

lemma pyLookup_cons (a : String × JVal) (tl : List (String × JVal))
    (k : String) :
    pyLookup (a :: tl) k =
      if a.1 == k then some a.2 else pyLookup tl k := by
  cases h : (a.1 == k) <;> simp [pyLookup, List.find?_cons, h]

lemma pyLookup_dictSet_self (d : List (String × JVal)) (k : String)
    (v : JVal) : pyLookup (dictSet d k v) k = some v := by
  induction d with
  | nil => simp [dictSet, pyLookup_cons]
  | cons a tl ih =>
    by_cases ha : (a.1 == k) = true
    · simp [dictSet, ha, pyLookup_cons]
    · simp [dictSet, ha, pyLookup_cons, ih]

lemma pyLookup_dictSet_ne (d : List (String × JVal)) (k k' : String)
    (v : JVal) (hne : k' ≠ k) :
    pyLookup (dictSet d k v) k' = pyLookup d k' := by
  have hkk : (k == k') = false :=
    beq_eq_false_iff_ne.mpr (fun h => hne h.symm)
  induction d with
  | nil => simp [dictSet, pyLookup_cons, hkk, pyLookup]
  | cons a tl ih =>
    by_cases ha : (a.1 == k) = true
    · have ha' : a.1 = k := by simpa using ha
      simp [dictSet, ha, pyLookup_cons, hkk, ha']
    · simp [dictSet, ha, pyLookup_cons, ih]

lemma pyLookup_pyDictUpdate (u : List (String × JVal))
    (d : List (String × JVal)) (k : String)
    (h : (u.map Prod.fst).Nodup) :
    pyLookup (pyDictUpdate d u) k =
      ((pyLookup u k).or (pyLookup d k)) := by
  induction u generalizing d with
  | nil => simp [pyDictUpdate, pyLookup]
  | cons a tl ih =>
    rw [List.map_cons] at h
    obtain ⟨hnotin, htl⟩ := List.nodup_cons.mp h
    show pyLookup (pyDictUpdate (dictSet d a.1 a.2) tl) k = _
    rw [ih _ htl, pyLookup_cons]
    by_cases hk : (a.1 == k) = true
    · have hk' : a.1 = k := by simpa using hk
      have htlnone : pyLookup tl k = none := by
        unfold pyLookup
        rw [List.find?_eq_none.mpr]
        · rfl
        · intro p hp
          simp only [beq_iff_eq]
          intro hpk
          exact hnotin (hk' ▸ hpk ▸ List.mem_map_of_mem Prod.fst hp)
      rw [htlnone, hk', pyLookup_dictSet_self]
      simp [hk]
    · have hk' : k ≠ a.1 := by
        intro h2
        simp [h2] at hk
      rw [pyLookup_dictSet_ne _ _ _ _ hk']
      simp [hk]

/-! ## Claim C9: the seat-status forwarder -/

/-- Claim C9, counterexample.  The topic `seats/status/T1` matches the
wildcard and has three levels, yet the forwarded payload's `showingId` is
the inbound payload's own `OTHER`, not the topic's third segment `T1`
(the dict display lets the spread payload override the injected key);
moreover `seats/status/` has three levels (the third empty) and produces
no outbound message at all. -/
theorem seat_status_counterexample :
    topic_matches_sub "seats/status/#" "seats/status/T1" = true
    ∧ (split_slash "seats/status/T1").length = 3
    ∧ handle_seat_status "seats/status/T1"
        [("showingId", JVal.str "OTHER"), ("seatId", JVal.str "A1")]
      = [⟨"seats/updates",
          [("showingId", JVal.str "OTHER"), ("seatId", JVal.str "A1")]⟩]
    ∧ ("OTHER" : String) ≠ "T1"
    ∧ topic_matches_sub "seats/status/#" "seats/status/" = true
    ∧ (split_slash "seats/status/").length = 3
    ∧ handle_seat_status "seats/status/" [("seatId", JVal.str "A1")] = [] :=
  ⟨rfl, rfl, rfl, by decide, rfl, rfl, rfl⟩

/-- C9 (amended): on a topic with at least three levels whose third level
is non-empty, `handle_seat_status` publishes exactly one message on
`seats/updates`, whose payload is the inbound payload with `showingId`
set to the topic's third level unless the inbound payload already
carries a `showingId`, which then takes precedence; all other fields are
forwarded unchanged.  A topic with fewer than three levels, or an empty
third level, produces no outbound message. -/
theorem seat_status_forward (topic : String)
    (payload : List (String × JVal))
    (hn : (payload.map Prod.fst).Nodup) :
    (2 < (split_slash topic).length → (split_slash topic).getD 2 "" ≠ "" →
      handle_seat_status topic payload
        = [⟨"seats/updates",
            pyDictUpdate [("showingId", .str ((split_slash topic).getD 2 ""))]
              payload⟩]
      ∧ ((∀ p ∈ payload, p.1 ≠ "showingId") →
          pyLookup
              (pyDictUpdate
                [("showingId", .str ((split_slash topic).getD 2 ""))] payload)
              "showingId"
            = some (.str ((split_slash topic).getD 2 "")))
      ∧ (∀ v, pyLookup payload "showingId" = some v →
          pyLookup
              (pyDictUpdate
                [("showingId", .str ((split_slash topic).getD 2 ""))] payload)
              "showingId"
            = some v)
      ∧ (∀ k, k ≠ "showingId" →
          pyLookup
              (pyDictUpdate
                [("showingId", .str ((split_slash topic).getD 2 ""))] payload)
              k
            = pyLookup payload k))
    ∧ ((split_slash topic).length ≤ 2 → handle_seat_status topic payload = [])
    ∧ ((split_slash topic).getD 2 "" = "" →
        handle_seat_status topic payload = []) := by
  have hupd : ∀ k, pyLookup
      (pyDictUpdate [("showingId", .str ((split_slash topic).getD 2 ""))]
        payload) k
      = (pyLookup payload k).or
          (pyLookup [("showingId", .str ((split_slash topic).getD 2 ""))] k) :=
    fun k => pyLookup_pyDictUpdate payload _ k hn
  refine ⟨fun hlen hseg => ⟨?_, ?_, ?_, ?_⟩, fun hlen => ?_, fun hseg => ?_⟩
  · have hget : (split_slash topic).getD 2 "" = (split_slash topic)[2] := by
      rw [List.getD_eq_getElem?_getD, List.getElem?_eq_getElem hlen]
      rfl
    simp [handle_seat_status, hlen, hseg]
    intro h
    exact hseg (by rw [hget]; exact h)
  · intro habs
    have hnone : pyLookup payload "showingId" = none := by
      unfold pyLookup
      rw [List.find?_eq_none.mpr]
      · rfl
      · intro p hp
        simpa using habs p hp
    rw [hupd, hnone]
    rfl
  · intro v hv
    rw [hupd, hv]
    rfl
  · intro k hk
    rw [hupd]
    have : pyLookup [("showingId", .str ((split_slash topic).getD 2 ""))] k
        = none := by
      unfold pyLookup
      rw [List.find?_cons_of_neg _ (by simpa using fun h => hk h.symm)]
      rfl
    rw [this]
    rcases pyLookup payload k with _ | w <;> rfl
  · have hlen2 : ¬((split_slash topic).length > 2) := by omega
    simp [handle_seat_status, hlen2]
  · simp [handle_seat_status, hseg]
    intro hlen
    rw [← List.getD_eq_getElem?_getD]
    exact hseg

/-- C9 amended, witness at a concrete topic and payload. -/
theorem seat_status_forward_witness :
    handle_seat_status "seats/status/77" [("seatId", JVal.str "A1")]
      = [⟨"seats/updates",
          pyDictUpdate [("showingId", JVal.str "77")]
            [("seatId", JVal.str "A1")]⟩]
    ∧ pyLookup
        (pyDictUpdate [("showingId", JVal.str "77")]
          [("seatId", JVal.str "A1")]) "showingId"
      = some (JVal.str "77") := by
  have h := (seat_status_forward "seats/status/77"
    [("seatId", JVal.str "A1")] (by decide)).1 (by decide) (by decide)
  exact ⟨h.1, h.2.1 (by decide)⟩

/-! ## Branch characterizations of `reserve_ticket` -/

lemma reserve_ticket_not_found (db : DB) (sid uid bid : Nat)
    (h : findShowing db sid = none) :
    reserve_ticket db sid uid bid = (db, .error .screeningNotFound) := by
  simp only [reserve_ticket, h]

lemma reserve_ticket_no_room (db : DB) (sid uid bid : Nat)
    (s : ShowingRec) (hs : findShowing db sid = some s)
    (hr : findRoom db s.room_id = none) :
    reserve_ticket db sid uid bid = (db, .error .missingRoom) := by
  simp only [reserve_ticket, hs, hr]

lemma reserve_ticket_full (db : DB) (sid uid bid : Nat)
    (s : ShowingRec) (r : RoomRec) (hs : findShowing db sid = some s)
    (hr : findRoom db s.room_id = some r)
    (hc : r.capacity ≤ s.bookings_count) :
    reserve_ticket db sid uid bid = (db, .error .noTicketsAvailable) := by
  simp only [reserve_ticket, hs, hr, if_pos hc]

lemma reserve_ticket_success (db : DB) (sid uid bid : Nat)
    (s : ShowingRec) (r : RoomRec) (hs : findShowing db sid = some s)
    (hr : findRoom db s.room_id = some r)
    (hc : s.bookings_count < r.capacity) :
    reserve_ticket db sid uid bid =
      (incrBookingsCount
          { db with
            bookings := db.bookings ++ [newBooking bid uid sid s.start_time] }
          sid,
       .ok { booking_id := bid, screening_id := sid,
             movie_title :=
               match findMovie db s.movie_id with
               | some m => m.title
               | none => "Unknown",
             start_time := s.start_time, room := r.name,
             ticket_count := 1, status := "confirmed" }) := by
  simp only [reserve_ticket, hs, hr, if_neg (Nat.not_le.mpr hc)]
  rfl

/-! ## Claim C2: seat exclusivity and the declared schema -/

/-- Claim C2, counterexample: the `seat_reservations` model declares no
storage-level uniqueness constraint on `(showing_id, seat_id)` — it has
no table-level unique constraints at all, and the only column with any
uniqueness is the primary key `id`. -/
theorem seat_reservation_no_unique_constraint :
    seat_reservations_table.uniqueConstraints = []
    ∧ ¬(∃ uc ∈ seat_reservations_table.uniqueConstraints,
          "showing_id" ∈ uc ∧ "seat_id" ∈ uc)
    ∧ ((seat_reservations_table.columns.filter
          (fun c => c.primaryKey || c.unique)).map ColumnDef.name) = ["id"] :=
  ⟨rfl, by decide, by decide⟩

/-- C2 (amended): no code path of the reservation route ever writes a
`SeatReservation` (so it never creates two active reservations for one
`(showing, seat)` pair), and the persisted layout enforces nothing: the
`seat_reservations` table declares no uniqueness constraint on
`(showing_id, seat_id)`; only the primary key `id` is unique. -/
theorem seat_reservation_exclusivity_unenforced (db : DB)
    (sid uid bid : Nat) :
    (reserve_ticket db sid uid bid).1.seat_reservations
        = db.seat_reservations
    ∧ seat_reservations_table.uniqueConstraints = []
    ∧ ((seat_reservations_table.columns.filter
          (fun c => c.primaryKey || c.unique)).map ColumnDef.name)
        = ["id"] := by
  refine ⟨?_, rfl, by decide⟩
  cases h1 : findShowing db sid with
  | none => rw [reserve_ticket_not_found db sid uid bid h1]
  | some s =>
    cases h2 : findRoom db s.room_id with
    | none => rw [reserve_ticket_no_room db sid uid bid s h1 h2]
    | some r =>
      rcases Nat.lt_or_ge s.bookings_count r.capacity with hc | hc
      · rw [reserve_ticket_success db sid uid bid s r h1 h2 hc]
        rfl
      · rw [reserve_ticket_full db sid uid bid s r h1 h2 hc]

/-! ## Claims C8 and C10: the seat-map projection -/

lemma get_showing_seats_ok_eq (db : DB) (sid : Nat) (out : List SeatOut)
    (h : get_showing_seats db sid = .ok out) :
    out = seatRows.flatMap (fun row =>
      (List.range 12).map (fun i => mockSeat row (i + 1))) := by
  unfold get_showing_seats at h
  cases h1 : findShowing db sid with
  | none => simp [h1] at h
  | some s =>
    cases h2 : findRoom db s.room_id with
    | none => simp [h1, h2] at h
    | some r =>
      simp only [h1, h2, Except.ok.injEq] at h
      exact h.symm

/-- Claim C8 (code divergence): the seat-map query returns the identical
hardcoded map whether or not any reservation exists — a store holding an
active, non-expired booked reservation on A1 still renders A1 as
`available`, while D6/D7/E6/E7 render `booked` with no reservation
backing them. -/
theorem seat_map_ignores_reservations :
    sampleDB.seat_reservations = []
    ∧ dbWithReservation.seat_reservations ≠ []
    ∧ (∃ sr ∈ dbWithReservation.seat_reservations,
        sr.showing_id = 1 ∧ sr.row = "A" ∧ sr.number = 1
          ∧ sr.status = "booked" ∧ sr.expires_at = none)
    ∧ get_showing_seats dbWithReservation 1 = get_showing_seats sampleDB 1
    ∧ (((get_showing_seats dbWithReservation 1).toOption.getD []).filter
          (fun st => st.status == "booked")).map (fun st => (st.row, st.number))
        = [("D", 6), ("D", 7), ("E", 6), ("E", 7)]
    ∧ (((get_showing_seats dbWithReservation 1).toOption.getD []).filter
          (fun st => st.row == "A" && st.number == 1)).map SeatOut.status
        = ["available"] :=
  ⟨rfl, by decide, by decide, rfl, by decide, by decide⟩

/-- Claim C10: for any two stores and any two showings on which the query
succeeds, the seat-map query returns one and the same fixed list: 96
seats, rows A-H with numbers 1-12 in row-major order, exactly D6, D7, E6
and E7 booked, exactly H1 and H2 accessible at price 15, every other
seat available at price 12. -/
theorem seat_map_constant (db1 db2 : DB) (sid1 sid2 : Nat)
    (out1 out2 : List SeatOut)
    (h1 : get_showing_seats db1 sid1 = .ok out1)
    (h2 : get_showing_seats db2 sid2 = .ok out2) :
    out1 = out2
    ∧ out1.length = 96
    ∧ out1.map (fun st => (st.row, st.number))
        = seatRows.flatMap (fun r =>
            (List.range 12).map (fun i => (r, i + 1)))
    ∧ (∀ st ∈ out1,
        (st.status = "booked" ↔
          ((st.row = "D" ∨ st.row = "E") ∧ (st.number = 6 ∨ st.number = 7))))
    ∧ (∀ st ∈ out1, st.status = "booked" ∨ st.status = "available")
    ∧ (∀ st ∈ out1,
        (st.isAccessible = true ↔
          (st.row = "H" ∧ (st.number = 1 ∨ st.number = 2))))
    ∧ (∀ st ∈ out1, st.price = if st.isAccessible then 15 else 12)
    ∧ (∀ st ∈ out1, st.id = st.row ++ toString st.number) := by
  have e1 := get_showing_seats_ok_eq db1 sid1 out1 h1
  have e2 := get_showing_seats_ok_eq db2 sid2 out2 h2
  subst e1
  subst e2
  exact ⟨rfl, by decide, by decide, by decide, by decide, by decide,
    by decide, by decide⟩

/-- C10, witness: two different stores, same output. -/
theorem seat_map_constant_witness :
    ∃ out1 out2, get_showing_seats sampleDB 1 = .ok out1
      ∧ get_showing_seats sampleDBFull 1 = .ok out2
      ∧ out1 = out2 ∧ out1.length = 96 :=
  ⟨_, _, rfl, rfl,
    (seat_map_constant sampleDB sampleDBFull 1 1 _ _ rfl rfl).1,
    (seat_map_constant sampleDB sampleDBFull 1 1 _ _ rfl rfl).2.1⟩

/-! ## Topic disjointness facts used for the fan-out claim -/

lemma response_ne_updates (u : String) :
    (("booking/response/" ++ u) == "seats/updates") = false := by
  rw [beq_eq_false_iff_ne]
  intro h
  have h2 : ("booking/response/" ++ u).data.head?
      = ("seats/updates" : String).data.head? := by rw [h]
  rw [String.data_append] at h2
  have hL : (("booking/response/" : String).data ++ u.data).head? = some 'b' :=
    rfl
  rw [hL] at h2
  exact absurd h2 (by decide)

lemma updates_ne_response (u : String) :
    (("seats/updates" : String) == "booking/response/" ++ u) = false := by
  rw [beq_eq_false_iff_ne]
  intro h
  have h2 : ("seats/updates" : String).data.head?
      = ("booking/response/" ++ u).data.head? := by rw [h]
  rw [String.data_append] at h2
  have hR : (("booking/response/" : String).data ++ u.data).head? = some 'b' :=
    rfl
  rw [hR] at h2
  exact absurd h2 (by decide)

lemma showing_ne_updates (s : String) :
    (("showing/" ++ s ++ "/seats") == "seats/updates") = false := by
  rw [beq_eq_false_iff_ne]
  intro h
  have h2 := congrArg String.length h
  rw [String.length_append, String.length_append] at h2
  rw [show ("showing/" : String).length = 8 from rfl,
    show ("/seats" : String).length = 6 from rfl,
    show ("seats/updates" : String).length = 13 from rfl] at h2
  omega

lemma updates_ne_showing (s : String) :
    (("seats/updates" : String) == "showing/" ++ s ++ "/seats") = false := by
  rw [beq_eq_false_iff_ne]
  intro h
  have h2 := congrArg String.length h
  rw [String.length_append, String.length_append] at h2
  rw [show ("showing/" : String).length = 8 from rfl,
    show ("/seats" : String).length = 6 from rfl,
    show ("seats/updates" : String).length = 13 from rfl] at h2
  omega

lemma response_ne_showing (u s : String) :
    (("booking/response/" ++ u) == "showing/" ++ s ++ "/seats") = false := by
  rw [beq_eq_false_iff_ne]
  intro h
  have h2 : ("booking/response/" ++ u).data.head?
      = ("showing/" ++ s ++ "/seats").data.head? := by rw [h]
  rw [String.data_append, String.data_append, String.data_append] at h2
  have hL : (("booking/response/" : String).data ++ u.data).head? = some 'b' :=
    rfl
  have hR : ((("showing/" : String).data ++ s.data)
      ++ ("/seats" : String).data).head? = some 's' := rfl
  rw [hL, hR] at h2
  exact absurd h2 (by decide)

lemma showing_ne_response (u s : String) :
    (("showing/" ++ s ++ "/seats") == "booking/response/" ++ u) = false := by
  rw [beq_eq_false_iff_ne]
  intro h
  have h2 : ("showing/" ++ s ++ "/seats").data.head?
      = ("booking/response/" ++ u).data.head? := by rw [h]
  rw [String.data_append, String.data_append, String.data_append] at h2
  have hL : ((("showing/" : String).data ++ s.data)
      ++ ("/seats" : String).data).head? = some 's' := rfl
  have hR : (("booking/response/" : String).data ++ u.data).head? = some 'b' :=
    rfl
  rw [hL, hR] at h2
  exact absurd h2 (by decide)

/-! ## Claim C6: the booking-request fan-out -/

/-- Claim C6: a valid booking request — truthy user id `u`, truthy
showing id `s`, non-empty seat array — makes the handler publish, in
order: one response on the user topic, then one `seats/updates` message
per seat (status booked, that seat's id, in request order), then one
showing-scoped message per seat (same contents, same order).  Projected
per topic: the `seats/updates` traffic is exactly one message per seat in
request order, likewise the showing-scoped traffic, and exactly one
message goes to `booking/response/u`. -/
theorem booking_request_fanout (payload : List (String × JVal))
    (u s : String) (seats : List JVal)
    (hu : pyGet payload "userId" = .str u) (hu0 : u ≠ "")
    (hs : pyGet payload "showingId" = .str s) (hs0 : s ≠ "")
    (hseats : pyGetD payload "seats" (.arr []) = .arr seats)
    (hne : seats ≠ []) :
    handle_booking_request payload
      = ⟨"booking/response/" ++ u,
          [("success", .boolean true),
           ("message", .str "Booking successful"),
           ("bookingId", .str "123456")]⟩
        :: (seats.map (fun seat =>
              ⟨"seats/updates", bookedSeatUpdate (.str s) (.str u) seat⟩)
            ++ seats.map (fun seat =>
              ⟨"showing/" ++ s ++ "/seats",
               showingSeatUpdate (.str u) seat⟩))
    ∧ ((handle_booking_request payload).filter
          (fun m => m.topic == "seats/updates"))
        = seats.map (fun seat =>
            ⟨"seats/updates", bookedSeatUpdate (.str s) (.str u) seat⟩)
    ∧ ((handle_booking_request payload).filter
          (fun m => m.topic == "showing/" ++ s ++ "/seats"))
        = seats.map (fun seat =>
            ⟨"showing/" ++ s ++ "/seats", showingSeatUpdate (.str u) seat⟩)
    ∧ ((handle_booking_request payload).filter
          (fun m => m.topic == "booking/response/" ++ u)).length = 1 := by
  have hub : (u == "") = false := beq_eq_false_iff_ne.mpr hu0
  have hsb : (s == "") = false := beq_eq_false_iff_ne.mpr hs0
  have hemp : seats.isEmpty = false := by
    cases seats with
    | nil => exact absurd rfl hne
    | cons a l => rfl
  have E : handle_booking_request payload
      = ⟨"booking/response/" ++ u,
          [("success", .boolean true),
           ("message", .str "Booking successful"),
           ("bookingId", .str "123456")]⟩
        :: (seats.map (fun seat =>
              ⟨"seats/updates", bookedSeatUpdate (.str s) (.str u) seat⟩)
            ++ seats.map (fun seat =>
              ⟨"showing/" ++ s ++ "/seats",
               showingSeatUpdate (.str u) seat⟩)) := by
    simp [handle_booking_request, hu, hs, hseats, pyTruthy, pyStrOf,
      jvalList, hub, hsb, hemp]
  refine ⟨E, ?_, ?_, ?_⟩
  · rw [E]
    simp [List.filter_cons, List.filter_append, List.filter_map,
      Function.comp_def, response_ne_updates, showing_ne_updates]
  · rw [E]
    simp [List.filter_cons, List.filter_append, List.filter_map,
      Function.comp_def, response_ne_showing, updates_ne_showing]
  · rw [E]
    simp [List.filter_cons, List.filter_append, List.filter_map,
      Function.comp_def, updates_ne_response, showing_ne_response]

/-- C6, witness at a one-seat request. -/
theorem booking_request_fanout_witness :
    ((handle_booking_request
        [("userId", JVal.str "u1"), ("showingId", JVal.str "S1"),
         ("seats", JVal.arr [JVal.str "A1"])]).filter
        (fun m => m.topic == "seats/updates"))
      = [⟨"seats/updates",
          bookedSeatUpdate (JVal.str "S1") (JVal.str "u1") (JVal.str "A1")⟩]
    ∧ ((handle_booking_request
        [("userId", JVal.str "u1"), ("showingId", JVal.str "S1"),
         ("seats", JVal.arr [JVal.str "A1"])]).filter
        (fun m => m.topic == "booking/response/" ++ "u1")).length = 1 := by
  have h := booking_request_fanout
    [("userId", JVal.str "u1"), ("showingId", JVal.str "S1"),
     ("seats", JVal.arr [JVal.str "A1"])]
    "u1" "S1" [JVal.str "A1"] rfl (by decide) rfl (by decide) rfl
    (List.cons_ne_nil _ _)
  exact ⟨h.2.1, h.2.2.2⟩

/-! ## Claim C7: inbound dispatch -/

/-- Claim C7: the `on_message` callback always returns a normal outcome —
a payload that fails to decode invokes no handler; when no registered
pattern matches the topic the message is dropped as `noHandler`; and when
the table decomposes as `pre ++ h :: post` with nothing in `pre` matching
and `h` matching, exactly `h` (the first match) is invoked, its outcome
(including a raised exception, the `Except.error` case) being captured in
the returned `handled` value. -/
theorem on_message_dispatch (handlers pre post : List TopicHandler)
    (h : TopicHandler) (topic : String)
    (payload : List (String × JVal)) :
    on_message handlers topic none = .decodeFailure
    ∧ invokedPattern (on_message handlers topic none) = none
    ∧ ((∀ g ∈ handlers, topic_matches_sub g.pattern topic = false) →
        on_message handlers topic (some payload) = .noHandler)
    ∧ ((∀ g ∈ pre, topic_matches_sub g.pattern topic = false) →
        topic_matches_sub h.pattern topic = true →
        on_message (pre ++ h :: post) topic (some payload)
          = .handled h.pattern (h.handle topic payload)) := by
  refine ⟨rfl, rfl, fun hnone => ?_, fun hpre hm => ?_⟩
  · unfold on_message
    rw [List.find?_eq_none.mpr (fun g hg => by simp [hnone g hg])]
  · unfold on_message
    rw [List.find?_append,
      List.find?_eq_none.mpr (fun g hg => by simp [hpre g hg]),
      @List.find?_cons_of_pos _ (fun g => topic_matches_sub g.pattern topic)
        h post hm]
    rfl

/-- C7, witness on the registered handler table. -/
theorem on_message_dispatch_witness :
    on_message topic_handlers "seats/status/9" none = .decodeFailure
    ∧ on_message topic_handlers "movies/list" (some []) = .noHandler
    ∧ on_message topic_handlers "seats/status/9" (some [])
        = .handled "seats/status/#"
            (.ok (handle_seat_status "seats/status/9" [])) := by
  refine ⟨(on_message_dispatch topic_handlers [] []
      ⟨"booking/request", fun _t p => .ok (handle_booking_request p)⟩
      "seats/status/9" []).1, ?_, ?_⟩
  · exact (on_message_dispatch topic_handlers [] []
      ⟨"booking/request", fun _t p => .ok (handle_booking_request p)⟩
      "movies/list" []).2.2.1 (by decide)
  · exact (on_message_dispatch []
      [⟨"booking/request", fun _t p => .ok (handle_booking_request p)⟩] []
      ⟨"seats/status/#", fun t p => .ok (handle_seat_status t p)⟩
      "seats/status/9" []).2.2.2 (by decide) (by decide)

/-! ## Store lookups across the commit -/

lemma findShowing_update_bookings (db : DB) (b : List BookingRec)
    (sid : Nat) :
    findShowing { db with bookings := b } sid = findShowing db sid := rfl

lemma findShowing_id (db : DB) (sid : Nat) (s : ShowingRec)
    (h : findShowing db sid = some s) : (s.id == sid) = true := by
  unfold findShowing at h
  exact @List.find?_some _ (fun t => t.id == sid) s db.showings h

lemma findShowing_mem (db : DB) (sid : Nat) (s : ShowingRec)
    (h : findShowing db sid = some s) : s ∈ db.showings := by
  unfold findShowing at h
  exact List.mem_of_find?_eq_some h

lemma findRoom_id (db : DB) (rid : Nat) (r : RoomRec)
    (h : findRoom db rid = some r) : (r.id == rid) = true := by
  unfold findRoom at h
  exact @List.find?_some _ (fun t => t.id == rid) r db.rooms h

lemma findRoom_mem (db : DB) (rid : Nat) (r : RoomRec)
    (h : findRoom db rid = some r) : r ∈ db.rooms := by
  unfold findRoom at h
  exact List.mem_of_find?_eq_some h

lemma findShowing_incr (db : DB) (sid cid : Nat) :
    findShowing (incrBookingsCount db cid) sid
      = (findShowing db sid).map (fun s =>
          if s.id == cid then
            { s with bookings_count := s.bookings_count + 1 }
          else s) := by
  unfold findShowing incrBookingsCount
  rw [List.find?_map]
  have hp : ((fun s : ShowingRec => s.id == sid) ∘ (fun s =>
      if s.id == cid then
        { s with bookings_count := s.bookings_count + 1 }
      else s)) = fun s : ShowingRec => s.id == sid := by
    funext t
    by_cases h : (t.id == cid) = true <;> simp [Function.comp, h]
  rw [hp]

lemma findShowing_incr_self (db : DB) (sid : Nat) :
    findShowing (incrBookingsCount db sid) sid
      = (findShowing db sid).map (fun s =>
          { s with bookings_count := s.bookings_count + 1 }) := by
  rw [findShowing_incr]
  cases h : findShowing db sid with
  | none => rfl
  | some s =>
    have hp : (s.id == sid) = true := findShowing_id db sid s h
    show some (if s.id == sid then
        { s with bookings_count := s.bookings_count + 1 } else s)
      = some { s with bookings_count := s.bookings_count + 1 }
    rw [if_pos hp]

/-! ## Claim C4: atomic failure / single-commit success -/

/-- Claim C4: a missing screening yields the not-found error with the
store untouched; a full screening yields the conflict error with the
store untouched; every error outcome leaves the store exactly as it was
(no booking row, no seat reservation, no counter change); and a
successful call returns the store holding exactly one appended confirmed
booking together with the incremented counter, with `seat_reservations`
untouched — both effects in the one committed state. -/
theorem reserve_atomicity (db : DB) (sid uid bid : Nat) :
    (findShowing db sid = none →
      reserve_ticket db sid uid bid = (db, .error .screeningNotFound))
    ∧ (∀ s r, findShowing db sid = some s →
        findRoom db s.room_id = some r →
        r.capacity ≤ s.bookings_count →
        reserve_ticket db sid uid bid = (db, .error .noTicketsAvailable))
    ∧ (∀ e, (reserve_ticket db sid uid bid).2 = .error e →
        (reserve_ticket db sid uid bid).1 = db)
    ∧ (∀ s r, findShowing db sid = some s →
        findRoom db s.room_id = some r →
        s.bookings_count < r.capacity →
        (reserve_ticket db sid uid bid).1.bookings
            = db.bookings ++ [newBooking bid uid sid s.start_time]
          ∧ (newBooking bid uid sid s.start_time).status = "confirmed"
          ∧ (reserve_ticket db sid uid bid).1.seat_reservations
              = db.seat_reservations
          ∧ findShowing (reserve_ticket db sid uid bid).1 sid
              = some { s with bookings_count := s.bookings_count + 1 }
          ∧ isOk (reserve_ticket db sid uid bid).2 = true) := by
  refine ⟨fun h => reserve_ticket_not_found db sid uid bid h,
    fun s r hs hr hc => reserve_ticket_full db sid uid bid s r hs hr hc,
    fun e he => ?_, fun s r hs hr hc => ?_⟩
  · cases h1 : findShowing db sid with
    | none => rw [reserve_ticket_not_found db sid uid bid h1]
    | some s =>
      cases h2 : findRoom db s.room_id with
      | none => rw [reserve_ticket_no_room db sid uid bid s h1 h2]
      | some r =>
        rcases Nat.lt_or_ge s.bookings_count r.capacity with hc | hc
        · exfalso
          rw [reserve_ticket_success db sid uid bid s r h1 h2 hc] at he
          exact nomatch he
        · rw [reserve_ticket_full db sid uid bid s r h1 h2 hc]
  · rw [reserve_ticket_success db sid uid bid s r hs hr hc]
    refine ⟨rfl, rfl, rfl, ?_, rfl⟩
    show findShowing
        (incrBookingsCount
          { db with
            bookings :=
              db.bookings ++ [newBooking bid uid sid s.start_time] }
          sid) sid
      = some { s with bookings_count := s.bookings_count + 1 }
    rw [findShowing_incr_self,
      findShowing_update_bookings db
        (db.bookings ++ [newBooking bid uid sid s.start_time]) sid, hs]
    rfl

/-- C4, witness: a missing screening (id 99) leaves `sampleDB` unchanged,
and a successful call appends exactly the confirmed booking and bumps the
counter to 1. -/
theorem reserve_atomicity_witness :
    reserve_ticket sampleDB 99 7 100 = (sampleDB, .error .screeningNotFound)
    ∧ (reserve_ticket sampleDB 1 7 100).1.bookings
        = sampleDB.bookings ++ [newBooking 100 7 1 1000]
    ∧ findShowing (reserve_ticket sampleDB 1 7 100).1 1
        = some { id := 1, movie_id := 5, room_id := 1, start_time := 1000,
                 status := "scheduled", bookings_count := 1 } := by
  have hsucc := (reserve_atomicity sampleDB 1 7 100).2.2.2
    { id := 1, movie_id := 5, room_id := 1, start_time := 1000,
      status := "scheduled", bookings_count := 0 }
    { id := 1, name := "Room 1", capacity := 2 } rfl rfl (by decide)
  exact ⟨(reserve_atomicity sampleDB 99 7 100).1 rfl, hsucc.1,
    hsucc.2.2.2.1⟩

/-! ## Claim C1: the capacity invariant -/

/-- Claim C1: a reservation succeeds exactly by incrementing the target
showing's counter by one, and only from a state where the counter was
strictly below the room's capacity; every error outcome leaves the store
(hence every counter) unchanged; consequently, assuming primary-key
uniqueness of showing and room ids, one execution of the reserve
operation preserves the invariant that every showing's `bookings_count`
is at most its room's capacity. -/
theorem reserve_preserves_capacity (db : DB) (sid uid bid : Nat)
    (hsn : (db.showings.map ShowingRec.id).Nodup)
    (hrn : (db.rooms.map RoomRec.id).Nodup) :
    (∀ resp, (reserve_ticket db sid uid bid).2 = .ok resp →
      ∃ s r, findShowing db sid = some s
        ∧ findRoom db s.room_id = some r
        ∧ s.bookings_count < r.capacity
        ∧ findShowing (reserve_ticket db sid uid bid).1 sid
            = some { s with bookings_count := s.bookings_count + 1 })
    ∧ (∀ e, (reserve_ticket db sid uid bid).2 = .error e →
        (reserve_ticket db sid uid bid).1 = db)
    ∧ ((∀ s ∈ db.showings, ∀ r ∈ db.rooms, s.room_id = r.id →
          s.bookings_count ≤ r.capacity) →
        ∀ s ∈ (reserve_ticket db sid uid bid).1.showings,
          ∀ r ∈ (reserve_ticket db sid uid bid).1.rooms,
            s.room_id = r.id → s.bookings_count ≤ r.capacity) := by
  cases h1 : findShowing db sid with
  | none =>
    rw [reserve_ticket_not_found db sid uid bid h1]
    exact ⟨fun resp hresp => (nomatch hresp), fun e he => rfl,
      fun hinv => hinv⟩
  | some s =>
    cases h2 : findRoom db s.room_id with
    | none =>
      rw [reserve_ticket_no_room db sid uid bid s h1 h2]
      exact ⟨fun resp hresp => (nomatch hresp), fun e he => rfl,
        fun hinv => hinv⟩
    | some r =>
      rcases Nat.lt_or_ge s.bookings_count r.capacity with hc | hc
      · rw [reserve_ticket_success db sid uid bid s r h1 h2 hc]
        refine ⟨fun resp hresp => ⟨s, r, rfl, h2, hc, ?_⟩,
          fun e he => (nomatch he), fun hinv => ?_⟩
        · show findShowing
              (incrBookingsCount
                { db with
                  bookings :=
                    db.bookings ++ [newBooking bid uid sid s.start_time] }
                sid) sid
            = some { s with bookings_count := s.bookings_count + 1 }
          rw [findShowing_incr_self,
            findShowing_update_bookings db
              (db.bookings ++ [newBooking bid uid sid s.start_time]) sid,
            h1]
          rfl
        · intro s' hs' r' hr' hmatch
          have hs'' : s' ∈ db.showings.map (fun t =>
              if t.id == sid then
                { t with bookings_count := t.bookings_count + 1 }
              else t) := hs'
          have hr'' : r' ∈ db.rooms := hr'
          obtain ⟨t, ht, rfl⟩ := List.mem_map.mp hs''
          by_cases hid : (t.id == sid) = true
          · rw [if_pos hid] at hmatch ⊢
            have hts : t = s := by
              have hsmem := findShowing_mem db sid s h1
              have hsid : (s.id == sid) = true := findShowing_id db sid s h1
              refine List.inj_on_of_nodup_map hsn ht hsmem ?_
              have e1 : t.id = sid := by simpa using hid
              have e2 : s.id = sid := by simpa using hsid
              rw [e1, e2]
            subst hts
            have hrr : r' = r := by
              have hrmem := findRoom_mem db t.room_id r h2
              have hrid : (r.id == t.room_id) = true :=
                findRoom_id db t.room_id r h2
              refine List.inj_on_of_nodup_map hrn hr'' hrmem ?_
              have e2 : r.id = t.room_id := by simpa using hrid
              rw [e2]
              exact hmatch.symm
            have hcap : r'.capacity = r.capacity := by rw [hrr]
            show t.bookings_count + 1 ≤ r'.capacity
            rw [hcap]
            omega
          · rw [if_neg hid] at hmatch ⊢
            exact hinv t ht r' hr'' hmatch
      · rw [reserve_ticket_full db sid uid bid s r h1 h2 hc]
        exact ⟨fun resp hresp => (nomatch hresp), fun e he => rfl,
          fun hinv => hinv⟩

/-- C1, witness: on `sampleDB` the success branch exhibits the checked
showing, its room and the incremented counter. -/
theorem reserve_preserves_capacity_witness :
    ∃ s r, findShowing sampleDB 1 = some s
      ∧ findRoom sampleDB s.room_id = some r
      ∧ s.bookings_count < r.capacity
      ∧ findShowing (reserve_ticket sampleDB 1 7 100).1 1
          = some { s with bookings_count := s.bookings_count + 1 } :=
  (reserve_preserves_capacity sampleDB 1 7 100 (by decide) (by decide)).1
    _ rfl

/-! ## Claim C3: idempotency -/

/-- Claim C3, counterexample: the reserve route takes no idempotency key
(its request is just the screening id), so submitting the identical
request twice from `sampleDB` succeeds twice and creates two bookings;
the state after the retry differs from the state after the first call. -/
theorem reserve_not_idempotent_counterexample :
    isOk (reserve_ticket sampleDB 1 7 100).2 = true
    ∧ isOk (reserve_ticket (reserve_ticket sampleDB 1 7 100).1 1 7 101).2
        = true
    ∧ (reserve_ticket sampleDB 1 7 100).1.bookings.length = 1
    ∧ (reserve_ticket
        (reserve_ticket sampleDB 1 7 100).1 1 7 101).1.bookings.length = 2
    ∧ findShowing
        (reserve_ticket (reserve_ticket sampleDB 1 7 100).1 1 7 101).1 1
      = some { id := 1, movie_id := 5, room_id := 1, start_time := 1000,
               status := "scheduled", bookings_count := 2 } := by
  refine ⟨rfl, rfl, rfl, rfl, rfl⟩

/-- C3 (amended): the reserve operation accepts no idempotency key and
performs no deduplication: whenever a request succeeds and capacity still
remains, re-submitting the identical request succeeds again and appends a
second, distinct confirmed booking (the counter rising once more). -/
theorem reserve_retry_duplicates (db : DB) (sid uid b1 b2 : Nat)
    (s : ShowingRec) (r : RoomRec)
    (hs : findShowing db sid = some s)
    (hr : findRoom db s.room_id = some r)
    (hc : s.bookings_count + 1 < r.capacity) :
    isOk (reserve_ticket db sid uid b1).2 = true
    ∧ isOk (reserve_ticket (reserve_ticket db sid uid b1).1 sid uid b2).2
        = true
    ∧ (reserve_ticket (reserve_ticket db sid uid b1).1 sid uid b2).1.bookings
        = db.bookings
          ++ [newBooking b1 uid sid s.start_time,
              newBooking b2 uid sid s.start_time] := by
  have hc1 : s.bookings_count < r.capacity := by omega
  have E1 := reserve_ticket_success db sid uid b1 s r hs hr hc1
  have hs1 : findShowing (reserve_ticket db sid uid b1).1 sid
      = some { s with bookings_count := s.bookings_count + 1 } := by
    rw [E1]
    show findShowing
        (incrBookingsCount
          { db with
            bookings := db.bookings ++ [newBooking b1 uid sid s.start_time] }
          sid) sid
      = some { s with bookings_count := s.bookings_count + 1 }
    rw [findShowing_incr_self,
      findShowing_update_bookings db
        (db.bookings ++ [newBooking b1 uid sid s.start_time]) sid, hs]
    rfl
  have hr1 : findRoom (reserve_ticket db sid uid b1).1
      ({ s with bookings_count := s.bookings_count + 1 } :
        ShowingRec).room_id = some r := by
    rw [E1]
    exact hr
  have hc2 : ({ s with bookings_count := s.bookings_count + 1 } :
      ShowingRec).bookings_count < r.capacity := by
    show s.bookings_count + 1 < r.capacity
    exact hc
  have E2 := reserve_ticket_success (reserve_ticket db sid uid b1).1 sid uid
    b2 _ r hs1 hr1 hc2
  refine ⟨?_, ?_, ?_⟩
  · rw [E1]
    rfl
  · rw [E2]
    rfl
  · rw [E2]
    show (reserve_ticket db sid uid b1).1.bookings
        ++ [newBooking b2 uid sid
              ({ s with bookings_count := s.bookings_count + 1 } :
                ShowingRec).start_time]
      = db.bookings
          ++ [newBooking b1 uid sid s.start_time,
              newBooking b2 uid sid s.start_time]
    rw [E1]
    show (db.bookings ++ [newBooking b1 uid sid s.start_time])
        ++ [newBooking b2 uid sid s.start_time]
      = db.bookings
          ++ [newBooking b1 uid sid s.start_time,
              newBooking b2 uid sid s.start_time]
    rw [List.append_assoc]
    rfl

/-- C3 amended, witness on `sampleDB`. -/
theorem reserve_retry_duplicates_witness :
    (reserve_ticket (reserve_ticket sampleDB 1 7 100).1 1 7 101).1.bookings
      = sampleDB.bookings
        ++ [newBooking 100 7 1 1000, newBooking 101 7 1 1000] :=
  (reserve_retry_duplicates sampleDB 1 7 100 101
    { id := 1, movie_id := 5, room_id := 1, start_time := 1000,
      status := "scheduled", bookings_count := 0 }
    { id := 1, name := "Room 1", capacity := 2 } rfl rfl (by decide)).2.2

/-! ## Claim C5: commit before publish -/

/-- Claim C5: on every successful reserve the event trace is exactly the
database commit followed by the one broker publish attempt; an erroring
reserve commits nothing and publishes nothing; the committed store and
the HTTP response are identical across any two broker states (a failed
or unavailable publish neither rolls back nor alters them); and with no
broker client the publish step merely returns `false`. -/
theorem commit_before_publish (db : DB) (broker broker2 : BrokerState)
    (sid uid bid : Nat) :
    (∀ resp, (reserve_ticket_flow db broker sid uid bid).2.1 = .ok resp →
      ∃ ok, (reserve_ticket_flow db broker sid uid bid).2.2
          = [.dbCommit, .brokerPublish ok])
    ∧ (∀ e, (reserve_ticket_flow db broker sid uid bid).2.1 = .error e →
        (reserve_ticket_flow db broker sid uid bid).2.2 = [])
    ∧ (reserve_ticket_flow db broker sid uid bid).1
        = (reserve_ticket_flow db broker2 sid uid bid).1
    ∧ (reserve_ticket_flow db broker sid uid bid).2.1
        = (reserve_ticket_flow db broker2 sid uid bid).2.1
    ∧ (reserve_ticket_flow db broker sid uid bid).1
        = (reserve_ticket db sid uid bid).1
    ∧ (∀ t p, broker.clientInitialized = false →
        publish_message broker t p = false) := by
  rcases hres : reserve_ticket db sid uid bid with ⟨db2, res⟩
  cases res with
  | error e =>
    refine ⟨fun resp hresp => ?_, fun e2 he => ?_, ?_, ?_, ?_,
      fun t p hb => ?_⟩
    · simp only [reserve_ticket_flow, hres] at hresp
      exact nomatch hresp
    · simp [reserve_ticket_flow, hres]
    · simp [reserve_ticket_flow, hres]
    · simp [reserve_ticket_flow, hres]
    · simp [reserve_ticket_flow, hres]
    · simp [publish_message, hb]
  | ok resp =>
    refine ⟨fun resp2 hresp => ?_, fun e2 he => ?_, ?_, ?_, ?_,
      fun t p hb => ?_⟩
    · simp only [reserve_ticket_flow, hres]
      exact ⟨_, rfl⟩
    · simp only [reserve_ticket_flow, hres] at he
      exact nomatch he
    · simp [reserve_ticket_flow, hres]
    · simp [reserve_ticket_flow, hres]
    · simp [reserve_ticket_flow, hres]
    · simp [publish_message, hb]

/-- C5, witness: with a dead broker the trace still commits first and the
committed store equals the one obtained with a live broker. -/
theorem commit_before_publish_witness :
    (∃ ok, (reserve_ticket_flow sampleDB ⟨false, false⟩ 1 7 100).2.2
        = [ReserveEvent.dbCommit, ReserveEvent.brokerPublish ok])
    ∧ (reserve_ticket_flow sampleDB ⟨false, false⟩ 1 7 100).1
        = (reserve_ticket_flow sampleDB ⟨true, true⟩ 1 7 100).1 :=
  ⟨(commit_before_publish sampleDB ⟨false, false⟩ ⟨true, true⟩ 1 7 100).1
      _ rfl,
    (commit_before_publish sampleDB ⟨false, false⟩ ⟨true, true⟩
      1 7 100).2.2.1⟩

end ProjectCinema
